import Mathlib

/-!
Verification of the `lazyserial` serial-terminal core.

The embedding follows the two source files the claims point at:

* `src/serial.rs` — the connection worker spawned by `open_port`. The worker
  thread is a deterministic loop driven by its environment: each iteration
  observes the result of `write_rx.try_recv()`, the outcome of
  `port.write_all` (when a payload was pending), the result of `port.read`,
  and whether `close_rx.try_recv()` returned `Ok`. We model one iteration's
  environment as `IterEnv` and run the loop over a finite list of such
  environments; the loop either breaks inside that list (second component
  `true`) or is still running when the list ends (`false`, the event list is
  then a prefix of the eventual trace). The events produced, in send order,
  model the Event Channel's contents, since `std::sync::mpsc` delivers in
  send order.

* `src/app.rs` — `AppState`, `add_output_line` (the bounded output log),
  `move_selection` and the `'r'` refresh branch of `handle_key_event`.
-/

namespace LazySerial

/-- The `SerialEvent` enum of `src/serial.rs`. Byte payloads are `List Nat`
(each entry a byte value). -/
inductive SerialEvent where
  | Opened : SerialEvent
  | Data : List Nat → SerialEvent
  | Error : String → SerialEvent
  | Closed : SerialEvent
deriving DecidableEq

/-- Result of `write_rx.try_recv()` at the top of a loop iteration:
`Ok(data)`, `Err(Empty)` or `Err(Disconnected)`. -/
inductive WriteRecv where
  | ok : List Nat → WriteRecv
  | empty : WriteRecv
  | disconnected : WriteRecv
deriving DecidableEq

/-- Result of `port.read(&mut buf)` in a loop iteration: `Ok(n)` carrying
the bytes `buf[..n]`, a timeout error (`ErrorKind::TimedOut`), or any other
I/O error carrying its display string. -/
inductive ReadRes where
  | ok : List Nat → ReadRes
  | timedOut : ReadRes
  | readErr : String → ReadRes
deriving DecidableEq

/-- `true` exactly on the fatal read outcome (an error other than timeout). -/
def ReadRes.isErr : ReadRes → Bool
  | ReadRes.readErr _ => true
  | _ => false

/-- The environment one worker-loop iteration interacts with: what
`write_rx.try_recv()` returns, whether `port.write_all` fails (and with what
message) when a payload was received, what `port.read` returns, and whether
`close_rx.try_recv()` returns `Ok`. -/
structure IterEnv where
  writeRecv : WriteRecv
  writeErr : Option String
  readRes : ReadRes
  closeReq : Bool
deriving DecidableEq

/-- The read half of a loop iteration (lines 69–84 of `src/serial.rs`),
together with the trailing close check: `Ok(n)` with `n > 0` sends
`Data(buf[..n].to_vec())`, `Ok(_)` and timeout send nothing, any other read
error sends an `Error` and breaks; otherwise the iteration breaks exactly
when `close_rx.try_recv().is_ok()`. `acc` holds the events the write half
already sent this iteration. -/
def readPhase (acc : List SerialEvent) (env : IterEnv) : List SerialEvent × Bool :=
  match env.readRes with
  | ReadRes.ok bytes =>
      if 0 < bytes.length then (acc ++ [SerialEvent.Data bytes], env.closeReq)
      else (acc, env.closeReq)
  | ReadRes.timedOut => (acc, env.closeReq)
  | ReadRes.readErr e => (acc ++ [SerialEvent.Error ("read error: " ++ e)], true)

/-- One full iteration of the worker loop (lines 55–85 of `src/serial.rs`):
first the `write_rx.try_recv()` match — `Disconnected` breaks immediately,
a received payload is written with `port.write_all` and a failure sends one
`Error` — then the read phase and close check. Returns the events sent this
iteration and whether the loop breaks. -/
def runIter (env : IterEnv) : List SerialEvent × Bool :=
  match env.writeRecv with
  | WriteRecv.disconnected => ([], true)
  | WriteRecv.empty => readPhase [] env
  | WriteRecv.ok _ =>
      match env.writeErr with
      | some e => readPhase [SerialEvent.Error ("write error: " ++ e)] env
      | none => readPhase [] env

/-- The worker loop run over a finite list of iteration environments.
Returns all events sent and `true` when some iteration broke the loop
(`false` means the loop is still running when the environment list ends). -/
def runLoop : List IterEnv → List SerialEvent × Bool
  | [] => ([], false)
  | env :: rest =>
      match runIter env with
      | (evs, true) => (evs, true)
      | (evs, false) =>
          let r := runLoop rest
          (evs ++ r.1, r.2)

/-- Result of `builder.open()` in the worker thread. -/
inductive OpenResult where
  | ok : OpenResult
  | err : String → OpenResult
deriving DecidableEq

/-- The whole worker thread of `open_port` (lines 48–96 of `src/serial.rs`):
on `Ok(port)` it sends `Opened`, runs the loop, and sends `Closed` after the
loop exits; on `Err(e)` it sends a single `Error` and returns. The second
component is `true` when the thread has finished. -/
def workerEvents (path : String) (res : OpenResult) (envs : List IterEnv) :
    List SerialEvent × Bool :=
  match res with
  | OpenResult.ok =>
      match runLoop envs with
      | (evs, true) => (SerialEvent.Opened :: evs ++ [SerialEvent.Closed], true)
      | (evs, false) => (SerialEvent.Opened :: evs, false)
  | OpenResult.err e =>
      ([SerialEvent.Error ("failed to open " ++ path ++ ": " ++ e)], true)

/-- `std::sync::mpsc::Sender::send`: succeeds exactly when the receiving end
is still alive; when the receiver has been dropped it fails with
`SendError`, whose display text is `"sending on a closed channel"`. -/
def mpscSend (receiverAlive : Bool) : Except String Unit :=
  if receiverAlive then Except.ok () else Except.error "sending on a closed channel"

/-- `SerialHandle::write` (lines 24–28 of `src/serial.rs`):
`self.tx.send(data).map_err(|e| anyhow!("writer disconnected: {e}"))`.
`receiverAlive` is whether the worker's `write_rx` is still alive, i.e.
whether the worker thread has not terminated; the payload does not affect
the result. -/
def SerialHandle.write (receiverAlive : Bool) (data : List Nat) : Except String Unit :=
  (mpscSend receiverAlive).mapError (fun e => "writer disconnected: " ++ e)

/-- `MAX_OUTPUT_LINES` of `src/app.rs` (line 15). -/
def MAX_OUTPUT_LINES : Nat := 5000

/-- The `while self.output_lines.len() > MAX_OUTPUT_LINES { self.output_lines.pop_front(); }`
loop of `AppState::add_output_line` (lines 59–61 of `src/app.rs`), acting on
the `VecDeque` modelled as a front-to-back list. -/
def trimFront (l : List String) : List String :=
  if h : MAX_OUTPUT_LINES < l.length then trimFront l.tail else l
termination_by l.length
decreasing_by
  simp only [List.length_tail]
  omega

/-- `AppState::add_output_line` (lines 57–62 of `src/app.rs`) restricted to
the `output_lines` field it mutates: `push_back(line)` followed by the
trimming `while` loop. -/
def add_output_line (lines : List String) (line : String) : List String :=
  trimFront (lines ++ [line])

/-- The `Focus` enum of `src/app.rs`. -/
inductive Focus where
  | Ports : Focus
  | Output : Focus
  | Input : Focus
deriving DecidableEq

/-- `serialport::SerialPortInfo`, reduced to the system port name; the
optional USB vendor metadata is not needed by any claim. -/
structure SerialPortInfo where
  port_name : String
deriving DecidableEq

/-- `AppState` of `src/app.rs` (lines 24–38). The two channel-endpoint
fields (`serial_handle`, `serial_event_rx`) are runtime handles to the
worker thread and carry no data the claims depend on, so they are omitted;
`output_scroll` is the `u16` scroll-back counter. -/
structure AppState where
  ports : List SerialPortInfo
  selected_port : Option Nat
  baud_rate : Nat
  is_open : Bool
  output_lines : List String
  output_scroll : Nat
  input_buffer : String
  focus : Focus

/-- `move_selection` of `src/app.rs` (lines 246–261): clamp
`current + delta` into `[0, len-1]` over `isize` arithmetic, or clear the
selection when the port list is empty. -/
def move_selection (app : AppState) (delta : Int) : AppState :=
  if app.ports.isEmpty then { app with selected_port := none }
  else
    let len : Int := (app.ports.length : Int)
    let current : Int :=
      match app.selected_port with
      | some i => (i : Int)
      | none => 0
    let next0 : Int := current + delta
    let next1 : Int := if next0 < 0 then 0 else next0
    let next2 : Int := if len ≤ next1 then len - 1 else next1
    { app with selected_port := some next2.toNat }

/-- The `KeyCode::Char('r')` branch of `handle_key_event`
(lines 184–191 of `src/app.rs`): replace `ports` with a fresh enumeration
and reset the selection to `Some(0)` unless the new list is empty. -/
def refresh_ports (app : AppState) (newPorts : List SerialPortInfo) : AppState :=
  if newPorts.isEmpty then { app with ports := newPorts, selected_port := none }
  else { app with ports := newPorts, selected_port := some 0 }

/-- The bounds invariant needed by `draw_header` (lines 31–36 of
`src/ui.rs`), which indexes `app.ports[idx]` whenever
`app.selected_port = Some(idx)` without a bounds check. -/
def selectedValid (app : AppState) : Prop :=
  ∀ i : Nat, app.selected_port = some i → i < app.ports.length

/-- The events the write half of one iteration sends: one `Error` exactly
when a payload was received and `write_all` failed. -/
def writeEvents (env : IterEnv) : List SerialEvent :=
  match env.writeRecv, env.writeErr with
  | WriteRecv.ok _, some e => [SerialEvent.Error ("write error: " ++ e)]
  | _, _ => []

/-- The events the read half of one iteration sends. -/
def readEvents (env : IterEnv) : List SerialEvent :=
  match env.readRes with
  | ReadRes.ok bytes =>
      if 0 < bytes.length then [SerialEvent.Data bytes] else []
  | ReadRes.timedOut => []
  | ReadRes.readErr e => [SerialEvent.Error ("read error: " ++ e)]

/-- `true` exactly on `Data` events. -/
def SerialEvent.isData : SerialEvent → Bool
  | SerialEvent.Data _ => true
  | _ => false

/-- Iteration environment where the device returns `Ok(0)` from `read`:
no pending write, a zero-byte successful read, no close request. -/
def envZeroRead : IterEnv :=
  { writeRecv := WriteRecv.empty, writeErr := none,
    readRes := ReadRes.ok [], closeReq := false }

/-- Iteration environment where the device returns one byte. -/
def envOneByte : IterEnv :=
  { writeRecv := WriteRecv.empty, writeErr := none,
    readRes := ReadRes.ok [7], closeReq := false }

/-- Iteration environment where a pending write fails with message `boom`
and the read merely times out. -/
def envWriteFail : IterEnv :=
  { writeRecv := WriteRecv.ok [1], writeErr := some "boom",
    readRes := ReadRes.timedOut, closeReq := false }

/-- Iteration environment where the read fails fatally with message `io`. -/
def envReadFail : IterEnv :=
  { writeRecv := WriteRecv.empty, writeErr := none,
    readRes := ReadRes.readErr "io", closeReq := false }

/-- Iteration environment where a close request arrives. -/
def envCloseReq : IterEnv :=
  { writeRecv := WriteRecv.empty, writeErr := none,
    readRes := ReadRes.timedOut, closeReq := true }

/-- `MAX_OUTPUT_LINES + 5` distinct lines, as in spec Scenario D. -/
def linesD : List String :=
  (List.range (MAX_OUTPUT_LINES + 5)).map (fun n => toString n)

/-! ### Helper lemmas about the worker loop -/

theorem readPhase_fst (acc : List SerialEvent) (env : IterEnv) :
    (readPhase acc env).1 = acc ++ readEvents env := by
  rcases h : env.readRes with bytes | _ | e
  · simp only [readPhase, readEvents, h]
    split <;> simp
  · simp [readPhase, readEvents, h]
  · simp [readPhase, readEvents, h]

theorem readPhase_snd (acc : List SerialEvent) (env : IterEnv) :
    (readPhase acc env).2 = (env.readRes.isErr || env.closeReq) := by
  rcases h : env.readRes with bytes | _ | e <;>
    simp only [readPhase, ReadRes.isErr, h]
  · split <;> simp
  · simp
  · simp

theorem runIter_fst (env : IterEnv) (h : env.writeRecv ≠ WriteRecv.disconnected) :
    (runIter env).1 = writeEvents env ++ readEvents env := by
  rcases hw : env.writeRecv with d | _ | _
  · rcases he : env.writeErr with _ | e <;>
      simp [runIter, writeEvents, hw, he, readPhase_fst]
  · simp [runIter, writeEvents, hw, readPhase_fst]
  · exact absurd hw h

theorem runIter_snd (env : IterEnv) (h : env.writeRecv ≠ WriteRecv.disconnected) :
    (runIter env).2 = (env.readRes.isErr || env.closeReq) := by
  rcases hw : env.writeRecv with d | _ | _
  · rcases he : env.writeErr with _ | e <;>
      simp only [runIter, hw, he, readPhase_snd]
  · simp only [runIter, hw, readPhase_snd]
  · exact absurd hw h

theorem runIter_disconnected (env : IterEnv) (h : env.writeRecv = WriteRecv.disconnected) :
    runIter env = ([], true) := by
  simp only [runIter, h]

theorem runIter_break_iff (env : IterEnv) :
    (runIter env).2 = true ↔
      (env.writeRecv = WriteRecv.disconnected ∨ env.readRes.isErr = true ∨
        env.closeReq = true) := by
  by_cases hw : env.writeRecv = WriteRecv.disconnected
  · simp [runIter_disconnected env hw, hw]
  · rw [runIter_snd env hw]
    simp [hw, Bool.or_eq_true]

theorem closed_not_mem_writeEvents (env : IterEnv) :
    SerialEvent.Closed ∉ writeEvents env := by
  rcases hw : env.writeRecv with d | _ | _ <;>
    rcases he : env.writeErr with _ | e <;>
    simp [writeEvents, hw, he]

theorem closed_not_mem_readEvents (env : IterEnv) :
    SerialEvent.Closed ∉ readEvents env := by
  rcases h : env.readRes with bytes | _ | e <;> simp [readEvents, h]

theorem closed_not_mem_runIter (env : IterEnv) :
    SerialEvent.Closed ∉ (runIter env).1 := by
  by_cases hw : env.writeRecv = WriteRecv.disconnected
  · simp [runIter_disconnected env hw]
  · rw [runIter_fst env hw]
    simp [closed_not_mem_writeEvents, closed_not_mem_readEvents]

theorem runLoop_cons (env : IterEnv) (rest : List IterEnv) :
    runLoop (env :: rest) =
      if (runIter env).2 = true then ((runIter env).1, true)
      else ((runIter env).1 ++ (runLoop rest).1, (runLoop rest).2) := by
  rcases hr : runIter env with ⟨evs, b⟩
  cases b <;> simp [runLoop, hr]

theorem closed_not_mem_runLoop (envs : List IterEnv) :
    SerialEvent.Closed ∉ (runLoop envs).1 := by
  induction envs with
  | nil => simp [runLoop]
  | cons env rest ih =>
      rw [runLoop_cons]
      split
      · exact closed_not_mem_runIter env
      · simp only [List.mem_append]
        intro hmem
        rcases hmem with hmem | hmem
        · exact closed_not_mem_runIter env hmem
        · exact ih hmem

theorem runLoop_append (pre rest : List IterEnv) (h : (runLoop pre).2 = false) :
    runLoop (pre ++ rest) =
      ((runLoop pre).1 ++ (runLoop rest).1, (runLoop rest).2) := by
  induction pre with
  | nil => simp [runLoop]
  | cons env pre ih =>
      cases hb : (runIter env).2 with
      | true =>
          rw [runLoop_cons] at h
          simp [hb] at h
      | false =>
          rw [runLoop_cons] at h
          simp only [hb, Bool.false_eq_true, if_false] at h
          rw [List.cons_append, runLoop_cons, runLoop_cons]
          simp [hb, ih h, List.append_assoc]

/-! ### Helper lemmas about the output log -/

theorem trimFront_eq : (l : List String) →
    trimFront l = l.drop (l.length - MAX_OUTPUT_LINES)
  | [] => by rw [trimFront]; simp
  | a :: t => by
      rw [trimFront]
      by_cases h : MAX_OUTPUT_LINES < (a :: t).length
      · rw [dif_pos h, List.tail_cons, trimFront_eq t]
        have h2 : (a :: t).length - MAX_OUTPUT_LINES =
            (t.length - MAX_OUTPUT_LINES) + 1 := by
          simp only [List.length_cons] at h ⊢
          omega
        rw [h2, List.drop_succ_cons]
      · rw [dif_neg h]
        have h2 : (a :: t).length - MAX_OUTPUT_LINES = 0 := by
          simp only [List.length_cons] at h ⊢
          omega
        rw [h2, List.drop_zero]

theorem trimFront_length_le (l : List String) :
    (trimFront l).length ≤ MAX_OUTPUT_LINES ∨ l.length ≤ MAX_OUTPUT_LINES := by
  rw [trimFront_eq, List.length_drop]
  omega

theorem add_output_line_length_le (lines : List String) (line : String) :
    (add_output_line lines line).length ≤ MAX_OUTPUT_LINES ∨
      lines.length + 1 ≤ MAX_OUTPUT_LINES := by
  rw [add_output_line, trimFront_eq, List.length_drop]
  simp only [List.length_append, List.length_cons]
  omega

theorem drop_bound_append (l t : List String) :
    ((l.drop (l.length - MAX_OUTPUT_LINES)) ++ t).drop
        (((l.drop (l.length - MAX_OUTPUT_LINES)) ++ t).length - MAX_OUTPUT_LINES) =
      (l ++ t).drop ((l ++ t).length - MAX_OUTPUT_LINES) := by
  have hk : l.length - MAX_OUTPUT_LINES ≤ l.length := Nat.sub_le _ _
  have h1 : l.drop (l.length - MAX_OUTPUT_LINES) ++ t =
      (l ++ t).drop (l.length - MAX_OUTPUT_LINES) :=
    (List.drop_append_of_le_length hk).symm
  rw [h1, List.drop_drop]
  have h2 : (l.length - MAX_OUTPUT_LINES) +
        (((l ++ t).drop (l.length - MAX_OUTPUT_LINES)).length - MAX_OUTPUT_LINES) =
      (l ++ t).length - MAX_OUTPUT_LINES := by
    simp only [List.length_drop, List.length_append]
    omega
  rw [h2]

theorem foldl_add_output (ls : List String) : ∀ init : List String,
    init.length ≤ MAX_OUTPUT_LINES →
    List.foldl add_output_line init ls =
      (init ++ ls).drop ((init ++ ls).length - MAX_OUTPUT_LINES) := by
  induction ls with
  | nil =>
      intro init h
      simp only [List.foldl_nil, List.append_nil]
      rw [Nat.sub_eq_zero_of_le h, List.drop_zero]
  | cons a t ih =>
      intro init h
      rw [List.foldl_cons]
      have hlen : (add_output_line init a).length ≤ MAX_OUTPUT_LINES := by
        rw [add_output_line, trimFront_eq, List.length_drop]
        omega
      rw [ih (add_output_line init a) hlen]
      rw [add_output_line, trimFront_eq]
      rw [drop_bound_append (init ++ [a]) t]
      simp [List.append_assoc]

/-! ### Further helper lemmas -/

theorem write_error_ne_read_error (a b : String) :
    ("write error: " ++ a) ≠ ("read error: " ++ b) := by
  intro h
  have h2 : ("write error: " ++ a).data = ("read error: " ++ b).data := by rw [h]
  have hw : ("write error: " ++ a).data = 'w' :: ("rite error: " ++ a).data := rfl
  have hr : ("read error: " ++ b).data = 'r' :: ("ead error: " ++ b).data := rfl
  rw [hw, hr] at h2
  simp at h2

theorem filter_isData_writeEvents (env : IterEnv) :
    (writeEvents env).filter SerialEvent.isData = [] := by
  rcases hw : env.writeRecv with d | _ | _ <;>
    rcases he : env.writeErr with _ | e <;>
    simp [writeEvents, hw, he, SerialEvent.isData]

theorem count_writeEvents_read_error (env : IterEnv) (msg : String) :
    (writeEvents env).count (SerialEvent.Error ("read error: " ++ msg)) = 0 := by
  apply List.count_eq_zero.mpr
  rcases hw : env.writeRecv with d | _ | _ <;>
    rcases he : env.writeErr with _ | e <;>
    simp [writeEvents, hw, he]
  exact fun hb => write_error_ne_read_error e msg hb.symm

theorem count_readEvents_error_of_not_fatal (env : IterEnv) (s : String)
    (hr : env.readRes.isErr = false) :
    (readEvents env).count (SerialEvent.Error s) = 0 := by
  apply List.count_eq_zero.mpr
  rcases h : env.readRes with bytes | _ | e
  · simp only [readEvents, h]
    split <;> simp
  · simp [readEvents, h]
  · rw [h] at hr
    simp [ReadRes.isErr] at hr

/-! ### Claim theorems -/

/-- Claim C1: for every connection whose device acquisition succeeded,
whenever the run loop terminates the worker sends exactly one `Closed`
event and it is the last event ever sent; moreover an iteration breaks the
loop exactly on the three termination paths — write-channel disconnection,
fatal read error, or an explicit close request. -/
theorem worker_closed_once_last (path : String) (envs : List IterEnv)
    (env : IterEnv) (h : (runLoop envs).2 = true) :
    (workerEvents path OpenResult.ok envs).1.count SerialEvent.Closed = 1 ∧
    (workerEvents path OpenResult.ok envs).1.getLast? = some SerialEvent.Closed ∧
    ((runIter env).2 = true ↔
      (env.writeRecv = WriteRecv.disconnected ∨ env.readRes.isErr = true ∨
        env.closeReq = true)) := by
  have hev : (workerEvents path OpenResult.ok envs).1 =
      SerialEvent.Opened :: (runLoop envs).1 ++ [SerialEvent.Closed] := by
    rcases hl : runLoop envs with ⟨evs, b⟩
    rw [hl] at h
    simp only at h
    subst b
    simp [workerEvents, hl]
  refine ⟨?_, ?_, runIter_break_iff env⟩
  · rw [hev]
    have h0 : (runLoop envs).1.count SerialEvent.Closed = 0 :=
      List.count_eq_zero.mpr (closed_not_mem_runLoop envs)
    simp [List.count_cons, List.count_append, h0]
  · rw [hev, List.getLast?_concat]

/-- Witness for `worker_closed_once_last`: one iteration that observes a
close request terminates the loop, and the resulting trace ends in its
single `Closed` event. -/
theorem worker_closed_once_last_witness :
    (runLoop [envCloseReq]).2 = true ∧
    ((workerEvents "dev" OpenResult.ok [envCloseReq]).1.count
        SerialEvent.Closed = 1 ∧
     (workerEvents "dev" OpenResult.ok [envCloseReq]).1.getLast? =
        some SerialEvent.Closed ∧
     ((runIter envCloseReq).2 = true ↔
       (envCloseReq.writeRecv = WriteRecv.disconnected ∨
         envCloseReq.readRes.isErr = true ∨ envCloseReq.closeReq = true))) :=
  ⟨by decide, worker_closed_once_last "dev" [envCloseReq] envCloseReq (by decide)⟩

/-- Claim C2: if device acquisition fails the worker sends exactly one
`Error` event and terminates without sending anything else — no `Opened`,
no `Closed`, and nothing after the `Error`. -/
theorem open_failure_single_error (path e : String) (envs : List IterEnv) :
    (workerEvents path (OpenResult.err e) envs).1 =
      [SerialEvent.Error ("failed to open " ++ path ++ ": " ++ e)] ∧
    SerialEvent.Opened ∉ (workerEvents path (OpenResult.err e) envs).1 ∧
    SerialEvent.Closed ∉ (workerEvents path (OpenResult.err e) envs).1 ∧
    (workerEvents path (OpenResult.err e) envs).2 = true := by
  refine ⟨rfl, ?_, ?_, rfl⟩ <;> simp [workerEvents]

/-- Claim C3 counterexample: a read that returns `Ok(0)` — zero bytes read,
which is not a timeout — emits no event at all, in particular not the
`Data` event with empty payload that the claim requires for "zero or more
bytes read". -/
theorem read_zero_bytes_no_data_event :
    (runIter envZeroRead).1 = [] ∧
    (runIter envZeroRead).1.filter SerialEvent.isData ≠ [SerialEvent.Data []] := by
  decide

/-- Claim C3 (amended): in each run-loop iteration that reaches the read, a
read returning one or more bytes emits exactly one `Data` event carrying
exactly those bytes (no batching across iterations), while a read returning
zero bytes or a timeout emits no `Data` event. -/
theorem data_event_per_read (env env2 : IterEnv) (bytes : List Nat)
    (hw : env.writeRecv ≠ WriteRecv.disconnected)
    (hw2 : env2.writeRecv ≠ WriteRecv.disconnected)
    (h : env.readRes = ReadRes.ok bytes)
    (h2 : env2.readRes = ReadRes.timedOut) :
    ((runIter env).1.filter SerialEvent.isData =
      if 0 < bytes.length then [SerialEvent.Data bytes] else []) ∧
    (runIter env2).1.filter SerialEvent.isData = [] := by
  constructor
  · rw [runIter_fst env hw, List.filter_append, filter_isData_writeEvents,
      List.nil_append]
    simp only [readEvents, h]
    split <;> simp [SerialEvent.isData]
  · rw [runIter_fst env2 hw2, List.filter_append, filter_isData_writeEvents,
      List.nil_append]
    simp [readEvents, h2]

/-- Witness for `data_event_per_read`: a one-byte read emits exactly the
one-byte `Data` event; a timed-out read emits none. -/
theorem data_event_per_read_witness :
    ((runIter envOneByte).1.filter SerialEvent.isData =
      if 0 < ([7] : List Nat).length then [SerialEvent.Data [7]] else []) ∧
    (runIter envCloseReq).1.filter SerialEvent.isData = [] :=
  data_event_per_read envOneByte envCloseReq [7] (by decide) (by decide) rfl rfl

/-- Claim C4: a failed write emits exactly one `Error` event for that write
and the loop continues — with a non-fatal read and no close request the
iteration does not break, and the remaining iterations are still processed
unchanged. -/
theorem write_failure_nonfatal (env : IterEnv) (d : List Nat) (e : String)
    (rest : List IterEnv)
    (hw : env.writeRecv = WriteRecv.ok d) (he : env.writeErr = some e)
    (hr : env.readRes.isErr = false) (hc : env.closeReq = false) :
    (runIter env).1.count (SerialEvent.Error ("write error: " ++ e)) = 1 ∧
    (runIter env).2 = false ∧
    runLoop (env :: rest) =
      ((runIter env).1 ++ (runLoop rest).1, (runLoop rest).2) := by
  have hnd : env.writeRecv ≠ WriteRecv.disconnected := by
    rw [hw]
    intro hcontra
    cases hcontra
  have hsnd : (runIter env).2 = false := by
    rw [runIter_snd env hnd, hr, hc]
    rfl
  refine ⟨?_, hsnd, ?_⟩
  · rw [runIter_fst env hnd, List.count_append]
    have hwe : writeEvents env = [SerialEvent.Error ("write error: " ++ e)] := by
      simp [writeEvents, hw, he]
    rw [hwe, count_readEvents_error_of_not_fatal env _ hr]
    simp
  · rw [runLoop_cons]
    simp [hsnd]

/-- Witness for `write_failure_nonfatal` at a concrete failing write with a
timed-out read. -/
theorem write_failure_nonfatal_witness :
    (runIter envWriteFail).1.count
        (SerialEvent.Error ("write error: " ++ "boom")) = 1 ∧
    (runIter envWriteFail).2 = false ∧
    runLoop [envWriteFail] =
      ((runIter envWriteFail).1 ++ (runLoop []).1, (runLoop []).2) :=
  write_failure_nonfatal envWriteFail [1] "boom" [] rfl rfl rfl rfl

/-- Claim C5: a read error other than timeout makes the iteration emit
exactly one `Error` event describing the read failure, as its last event,
and break the loop; the worker then sends the single final `Closed` event,
which ends the trace. -/
theorem read_error_fatal (path : String) (env : IterEnv) (msg : String)
    (pre : List IterEnv)
    (hw : env.writeRecv ≠ WriteRecv.disconnected)
    (hr : env.readRes = ReadRes.readErr msg)
    (hpre : (runLoop pre).2 = false) :
    (runIter env).2 = true ∧
    (runIter env).1.getLast? =
      some (SerialEvent.Error ("read error: " ++ msg)) ∧
    (runIter env).1.count (SerialEvent.Error ("read error: " ++ msg)) = 1 ∧
    (workerEvents path OpenResult.ok (pre ++ [env])).2 = true ∧
    (workerEvents path OpenResult.ok (pre ++ [env])).1.getLast? =
      some SerialEvent.Closed ∧
    (workerEvents path OpenResult.ok (pre ++ [env])).1.count
      SerialEvent.Closed = 1 := by
  have hsnd : (runIter env).2 = true := by
    rw [runIter_snd env hw, hr]
    rfl
  have hre : readEvents env = [SerialEvent.Error ("read error: " ++ msg)] := by
    simp [readEvents, hr]
  have hloop : runLoop (pre ++ [env]) =
      ((runLoop pre).1 ++ (runIter env).1, true) := by
    rw [runLoop_append pre [env] hpre, runLoop_cons]
    simp [hsnd, runLoop]
  have hterm : (runLoop (pre ++ [env])).2 = true := by rw [hloop]
  have hev : (workerEvents path OpenResult.ok (pre ++ [env])).1 =
      SerialEvent.Opened :: (runLoop (pre ++ [env])).1 ++ [SerialEvent.Closed] := by
    rcases hl : runLoop (pre ++ [env]) with ⟨evs, b⟩
    rw [hl] at hterm
    simp only at hterm
    subst b
    simp [workerEvents, hl]
  have hwrk2 : (workerEvents path OpenResult.ok (pre ++ [env])).2 = true := by
    rcases hl : runLoop (pre ++ [env]) with ⟨evs, b⟩
    rw [hl] at hterm
    simp only at hterm
    subst b
    simp [workerEvents, hl]
  refine ⟨hsnd, ?_, ?_, hwrk2, ?_, ?_⟩
  · rw [runIter_fst env hw, hre, List.getLast?_concat]
  · rw [runIter_fst env hw, List.count_append, hre,
      count_writeEvents_read_error env msg]
    simp
  · rw [hev, List.getLast?_concat]
  · rw [hev]
    have h0 : (runLoop (pre ++ [env])).1.count SerialEvent.Closed = 0 :=
      List.count_eq_zero.mpr (closed_not_mem_runLoop (pre ++ [env]))
    simp [List.count_cons, List.count_append, h0]

/-- Witness for `read_error_fatal` at a concrete fatal read error. -/
theorem read_error_fatal_witness :
    (runIter envReadFail).2 = true ∧
    (runIter envReadFail).1.getLast? =
      some (SerialEvent.Error ("read error: " ++ "io")) ∧
    (runIter envReadFail).1.count
      (SerialEvent.Error ("read error: " ++ "io")) = 1 ∧
    (workerEvents "dev" OpenResult.ok ([] ++ [envReadFail])).2 = true ∧
    (workerEvents "dev" OpenResult.ok ([] ++ [envReadFail])).1.getLast? =
      some SerialEvent.Closed ∧
    (workerEvents "dev" OpenResult.ok ([] ++ [envReadFail])).1.count
      SerialEvent.Closed = 1 :=
  read_error_fatal "dev" envReadFail "io" [] (by decide) rfl (by decide)

/-- Claim C6 counterexample: on an open failure the worker sends an `Error`
event on the connection's Event Channel with no `Opened` event anywhere in
the trace, so `Opened` does not precede it. -/
theorem error_without_opened_on_open_failure :
    SerialEvent.Error ("failed to open " ++ "dev" ++ ": " ++ "nope") ∈
      (workerEvents "dev" (OpenResult.err "nope") []).1 ∧
    SerialEvent.Opened ∉ (workerEvents "dev" (OpenResult.err "nope") []).1 := by
  constructor <;> simp [workerEvents]

/-- Claim C6 (amended): for every connection whose device acquisition
succeeded, the first event sent is `Opened`, so an `Opened` event precedes
every `Data` and `Error` event on that connection's Event Channel. -/
theorem opened_first_on_success (path : String) (envs : List IterEnv) :
    (workerEvents path OpenResult.ok envs).1.head? = some SerialEvent.Opened := by
  rcases hl : runLoop envs with ⟨evs, b⟩
  cases b <;> simp [workerEvents, hl]

/-- Claim C7: `SerialHandle::write` fails exactly when the worker's
receiving end of the write channel has been dropped (the worker has
terminated); its result is the disconnection error alone and does not
depend on any device transmission outcome. -/
theorem write_err_iff_worker_gone (receiverAlive : Bool) (data : List Nat) :
    ((SerialHandle.write receiverAlive data).isOk = false ↔
      receiverAlive = false) ∧
    SerialHandle.write receiverAlive data =
      (if receiverAlive then Except.ok ()
       else Except.error
         ("writer disconnected: " ++ "sending on a closed channel")) := by
  cases receiverAlive <;>
    simp [SerialHandle.write, mpscSend, Except.mapError, Except.isOk,
      Except.toBool]

/-- Claim C8: starting from any log state within the bound, after any
sequence of appended lines the log length never exceeds
`MAX_OUTPUT_LINES`, and the retained lines are exactly the most recent
lines in original relative order — the evicted lines are exactly the
oldest, dropped from the front. -/
theorem output_log_bounded_fifo (init ls : List String)
    (h : init.length ≤ MAX_OUTPUT_LINES) :
    (List.foldl add_output_line init ls).length ≤ MAX_OUTPUT_LINES ∧
    List.foldl add_output_line init ls =
      (init ++ ls).drop ((init ++ ls).length - MAX_OUTPUT_LINES) := by
  have hf := foldl_add_output ls init h
  refine ⟨?_, hf⟩
  rw [hf, List.length_drop]
  omega

/-- Witness for `output_log_bounded_fifo` on a small concrete log. -/
theorem output_log_bounded_fifo_witness :
    (["a"] : List String).length ≤ MAX_OUTPUT_LINES ∧
    ((List.foldl add_output_line ["a"] ["b", "c"]).length ≤ MAX_OUTPUT_LINES ∧
     List.foldl add_output_line ["a"] ["b", "c"] =
       (["a"] ++ ["b", "c"]).drop
         ((["a"] ++ ["b", "c"]).length - MAX_OUTPUT_LINES)) :=
  ⟨by decide, output_log_bounded_fifo ["a"] ["b", "c"] (by decide)⟩

/-- Claim C9 counterexample: appending `MAX_OUTPUT_LINES + 5` lines to an
initially empty log leaves `MAX_OUTPUT_LINES` lines, and those are not the
5 most-recently-appended lines (`linesD.drop MAX_OUTPUT_LINES`). -/
theorem scenario_d_not_five_lines :
    (List.foldl add_output_line [] linesD).length = MAX_OUTPUT_LINES ∧
    List.foldl add_output_line [] linesD ≠ linesD.drop MAX_OUTPUT_LINES := by
  have hM : MAX_OUTPUT_LINES = 5000 := rfl
  have hlen : linesD.length = MAX_OUTPUT_LINES + 5 := by simp [linesD]
  have hf := foldl_add_output linesD [] (by simp)
  simp only [List.nil_append] at hf
  constructor
  · rw [hf, List.length_drop]
    omega
  · rw [hf]
    intro heq
    have h1 := congrArg List.length heq
    rw [List.length_drop, List.length_drop] at h1
    omega

/-- Claim C9 (amended): appending `MAX_OUTPUT_LINES + 5` lines to an
initially empty log leaves exactly `MAX_OUTPUT_LINES` lines: the
`MAX_OUTPUT_LINES` most-recently-appended ones in original relative order,
the 5 oldest having been evicted. -/
theorem scenario_d_keeps_most_recent :
    (List.foldl add_output_line [] linesD).length = MAX_OUTPUT_LINES ∧
    List.foldl add_output_line [] linesD = linesD.drop 5 := by
  have hM : MAX_OUTPUT_LINES = 5000 := rfl
  have hlen : linesD.length = MAX_OUTPUT_LINES + 5 := by simp [linesD]
  have hf := foldl_add_output linesD [] (by simp)
  simp only [List.nil_append] at hf
  have h5 : linesD.length - MAX_OUTPUT_LINES = 5 := by omega
  constructor
  · rw [hf, List.length_drop]
    omega
  · rw [hf, h5]

/-- Claim C10: both operations that mutate the port list or the selection —
arrow-key movement via `move_selection` and the `'r'` refresh — leave
`selected_port` a strictly valid index into `ports`, so the unchecked
`app.ports[idx]` indexing in `draw_header` cannot go out of bounds. -/
theorem selection_index_valid (app : AppState) (delta : Int)
    (newPorts : List SerialPortInfo) :
    selectedValid (move_selection app delta) ∧
    selectedValid (refresh_ports app newPorts) := by
  constructor
  · intro i hi
    by_cases he : app.ports.isEmpty = true
    · simp [move_selection, he] at hi
    · have he' : app.ports.isEmpty = false := by
        revert he
        cases app.ports.isEmpty <;> simp
      have hpos : 0 < app.ports.length := by
        apply List.length_pos.mpr
        intro h0
        rw [h0] at he'
        simp at he'
      rcases happ : app.selected_port with _ | j <;>
        simp [move_selection, he', happ] at hi ⊢ <;>
        subst hi <;>
        split_ifs <;>
        omega
  · intro i hi
    by_cases hne : newPorts.isEmpty = true
    · simp [refresh_ports, hne] at hi
    · have hne' : newPorts.isEmpty = false := by
        revert hne
        cases newPorts.isEmpty <;> simp
      have hpos : 0 < newPorts.length := by
        apply List.length_pos.mpr
        intro h0
        rw [h0] at hne'
        simp at hne'
      simp [refresh_ports, hne'] at hi ⊢
      subst hi
      exact hpos

end LazySerial
